import Mathlib

/-!
Shallow embedding of the LEGALEASE service (`src/app1.py`).

The file models, faithfully to the Python source:
  * `sanitize_text`   — `re.sub(r"\s+", " ", text).strip()`
  * `SUMMARY_LEVELS`  — the level → label dictionary
  * `summarize_with_groq` — request construction, the single upstream POST,
    `raise_for_status`, and `r.json()["choices"][0]["message"]["content"]`
  * `generate_pdf`    — the reportlab element list
  * the two Flask route handlers `summarize` and `download_pdf`

Machine effects are made explicit: the upstream HTTP call is an oracle
`RequestBody → UpstreamOutcome`, and each function that performs calls also
returns the list of requests actually sent, so that "no request is sent" and
"no retry" are provable statements.  Python exceptions (`KeyError`,
`requests` errors) are modelled with `Option`/`Except`; an exception escaping
a Flask handler becomes the 500 response `HttpResponse.internalError`.
-/

/-- Python whitespace class: the characters matched by `\s` (and stripped by
`str.strip()`) in the ASCII range, which is the range the regex and `strip`
agree on and all that the service's behaviour depends on. -/
def isPySpace (c : Char) : Bool :=
  c == ' ' || c == '\t' || c == '\n' || c == '\r' || c == '\x0b' || c == '\x0c'

/-- `re.sub(r"\s+", " ", ·)` on a character list: every maximal run of
whitespace characters is replaced by a single space. -/
def collapseWS : List Char → List Char
  | [] => []
  | [c] => [if isPySpace c then ' ' else c]
  | c :: d :: rest =>
      if isPySpace c && isPySpace d then collapseWS (d :: rest)
      else (if isPySpace c then ' ' else c) :: collapseWS (d :: rest)

/-- Python `str.strip()` on a character list: drop whitespace from both ends. -/
def stripWS (l : List Char) : List Char :=
  ((l.dropWhile isPySpace).reverse.dropWhile isPySpace).reverse

/-- `sanitize_text` from `src/app1.py`:
`return re.sub(r"\s+", " ", text).strip()`. -/
def sanitize_text (s : String) : String :=
  String.mk (stripWS (collapseWS s.data))

/-- The `SUMMARY_LEVELS` dictionary from `src/app1.py`, as an association
list (`SUMMARY_LEVELS[level]` is `List.lookup level SUMMARY_LEVELS`, with
`none` standing for the `KeyError`). -/
def SUMMARY_LEVELS : List (String × String) :=
  [("short", "Brief Overview"),
   ("medium", "Standard Summary"),
   ("detailed", "Comprehensive Analysis")]

/-- Python `str.lower()` (ASCII case mapping, which covers the labels the
service lower-cases). -/
def pyLower (s : String) : String :=
  String.mk (s.data.map Char.toLower)

/-- Python `str.split("\n")` on a character list: split at every newline,
keeping empty segments; the empty string yields one empty segment. -/
def splitOnNewline : List Char → List (List Char)
  | [] => [[]]
  | c :: rest =>
      if c = '\n' then [] :: splitOnNewline rest
      else
        match splitOnNewline rest with
        | [] => [[c]]
        | h :: t => (c :: h) :: t

/-- A JSON value, for upstream response bodies. -/
inductive Json where
  | null : Json
  | str (s : String) : Json
  | num (n : Int) : Json
  | arr (elems : List Json) : Json
  | obj (fields : List (String × Json)) : Json

/-- Python `j[key]` on a parsed JSON value: `none` models the
`KeyError`/`TypeError` raised when the key is absent or `j` is not an
object. -/
def Json.getKey : Json → String → Option Json
  | Json.obj fields, k => List.lookup k fields
  | _, _ => none

/-- Python `j[i]` on a parsed JSON value: `none` models the
`IndexError`/`TypeError` raised when the index is out of range or `j` is not
an array. -/
def Json.getIndex : Json → Nat → Option Json
  | Json.arr elems, i => elems.get? i
  | _, _ => none

/-- `r.json()["choices"][0]["message"]["content"]` from
`summarize_with_groq`: `none` models any of the lookup errors on the way. -/
def extractContent (j : Json) : Option Json := do
  let choices ← j.getKey "choices"
  let first ← choices.getIndex 0
  let message ← first.getKey "message"
  message.getKey "content"

/-- One chat message of the outbound request body. -/
structure Message where
  role : String
  content : String
  deriving DecidableEq

/-- The JSON body `summarize_with_groq` posts to the Groq endpoint. -/
structure RequestBody where
  model : String
  temperature : Rat
  messages : List Message
  deriving DecidableEq

/-- The system prompt literal from `summarize_with_groq`. -/
def systemPrompt : String :=
  "You are a legal document expert. Summarize clearly, preserving legal conditions, exceptions, and qualifiers."

/-- The request body `summarize_with_groq` constructs before posting:
`none` models the `KeyError` raised by `SUMMARY_LEVELS[level]` for an
unrecognized level, which happens before any network traffic. -/
def buildGroqBody (text level : String) : Option RequestBody :=
  match List.lookup level SUMMARY_LEVELS with
  | none => none
  | some label =>
      some
        { model := "llama-3.1-70b-versatile"
          temperature := (3 : Rat) / 10
          messages :=
            [{ role := "system", content := systemPrompt },
             { role := "user",
               content := "Provide a " ++ pyLower label ++ ":\n\n" ++ text }] }

/-- What the upstream HTTP call can produce: a transport-level failure
(`requests` raising before a response exists), or a response with a status
code and a body (`none` when `r.json()` cannot parse it). -/
inductive UpstreamOutcome where
  | netFail : UpstreamOutcome
  | response (status : Nat) (body : Option Json) : UpstreamOutcome

/-- The exceptions `summarize_with_groq` can raise. -/
inductive GroqError where
  | keyError (level : String) : GroqError
  | netFail : GroqError
  | httpError (status : Nat) : GroqError
  | jsonDecodeError : GroqError
  | bodyShapeError : GroqError
  deriving DecidableEq

/-- `summarize_with_groq` from `src/app1.py`, with the network as an oracle.
Returns the result (`Except.error` models an exception propagating out of
the function) together with the list of requests actually sent upstream.
`raise_for_status` raises exactly for status codes in `[400, 600)`. -/
def summarize_with_groq (oracle : RequestBody → UpstreamOutcome)
    (text level : String) : Except GroqError Json × List RequestBody :=
  match buildGroqBody text level with
  | none => (Except.error (GroqError.keyError level), [])
  | some body =>
      match oracle body with
      | UpstreamOutcome.netFail => (Except.error GroqError.netFail, [body])
      | UpstreamOutcome.response status jbody =>
          if 400 ≤ status ∧ status < 600 then
            (Except.error (GroqError.httpError status), [body])
          else
            match jbody with
            | none => (Except.error GroqError.jsonDecodeError, [body])
            | some j =>
                match extractContent j with
                | none => (Except.error GroqError.bodyShapeError, [body])
                | some c => (Except.ok c, [body])

/-- Paragraph alignment constants used by `generate_pdf`
(`TA_CENTER`, `TA_JUSTIFY`). -/
inductive ParaAlign where
  | center : ParaAlign
  | justify : ParaAlign
  deriving DecidableEq

/-- A reportlab `ParagraphStyle`, restricted to the attributes
`generate_pdf` sets or relies on; `none` means the attribute is left at the
style sheet's default. -/
structure ParaStyle where
  name : String
  fontSize : Option Nat
  leading : Option Nat
  alignment : Option ParaAlign
  textColor : Option String
  fontName : Option String
  deriving DecidableEq

/-- The `title` style from `generate_pdf`: font size 24, centered, brand
color `#78350f`. -/
def titleStyle : ParaStyle :=
  { name := "title"
    fontSize := some 24
    leading := none
    alignment := some ParaAlign.center
    textColor := some "#78350f"
    fontName := none }

/-- The `body` style from `generate_pdf`: font size 11, leading 18,
justified, default text color. -/
def bodyStyle : ParaStyle :=
  { name := "body"
    fontSize := some 11
    leading := some 18
    alignment := some ParaAlign.justify
    textColor := none
    fontName := none }

/-- The sample style sheet's `Italic` style used for the subtitle and the
disclaimer (an italic font, everything else default). -/
def italicStyle : ParaStyle :=
  { name := "Italic"
    fontSize := none
    leading := none
    alignment := none
    textColor := none
    fontName := some "Times-Italic" }

/-- The disclaimer literal from `generate_pdf`. -/
def disclaimerText : String :=
  "This document is for informational purposes only and not legal advice."

/-- A flowable appended to `elements` in `generate_pdf`: a `Paragraph` with
its style, or a `Spacer` with its width and height. -/
inductive Element where
  | paragraph (text : String) (style : ParaStyle) : Element
  | spacer (width height : Nat) : Element
  deriving DecidableEq

/-- `generate_pdf` from `src/app1.py`, as the list of flowables handed to
`doc.build` (the byte serialization itself is the layout library's work and
carries no further decision logic).  `none` models the `KeyError` raised by
`SUMMARY_LEVELS[level]` for an unrecognized level. -/
def generate_pdf (summary level : String) : Option (List Element) :=
  match List.lookup level SUMMARY_LEVELS with
  | none => none
  | some label =>
      some
        ([Element.paragraph "LEGALEASE" titleStyle,
          Element.spacer 1 12,
          Element.paragraph ("Summary Level: " ++ label) italicStyle,
          Element.spacer 1 20]
         ++ (splitOnNewline summary.data).flatMap
              (fun p => [Element.paragraph (String.mk p) bodyStyle,
                         Element.spacer 1 8])
         ++ [Element.spacer 1 20,
             Element.paragraph disclaimerText italicStyle])

/-- A parsed JSON request body, keeping only the fields the two handlers
read; `none` is an absent key (`data.get(...)` then takes the default). -/
structure ReqData where
  text : Option String
  level : Option String
  summary : Option String

/-- What a handler hands back to Flask: a JSON response with a status code,
a file attachment (`send_file`, status 200), or an uncaught exception that
Flask's error path turns into a 500. -/
inductive HttpResponse where
  | json (status : Nat) (body : Json) : HttpResponse
  | file (filename mimetype : String) (content : List Element) : HttpResponse
  | internalError : HttpResponse

/-- The HTTP status code of a handler outcome. -/
def statusOf : HttpResponse → Nat
  | HttpResponse.json s _ => s
  | HttpResponse.file _ _ _ => 200
  | HttpResponse.internalError => 500

/-- The `POST /summarize` handler `summarize` from `src/app1.py`.  Besides
the response it returns the argument pair passed to the summarization
client (`none` when the client is never invoked) and the list of upstream
requests sent. -/
def summarize (oracle : RequestBody → UpstreamOutcome) (data : ReqData) :
    HttpResponse × Option (String × String) × List RequestBody :=
  if sanitize_text (data.text.getD "") = "" then
    (HttpResponse.json 400 (Json.obj [("error", Json.str "Text required")]),
     none, [])
  else
    match summarize_with_groq oracle (sanitize_text (data.text.getD ""))
        (data.level.getD "medium") with
    | (Except.ok s, sent) =>
        (HttpResponse.json 200 (Json.obj [("summary", s)]),
         some (sanitize_text (data.text.getD ""), data.level.getD "medium"),
         sent)
    | (Except.error _, sent) =>
        (HttpResponse.internalError,
         some (sanitize_text (data.text.getD ""), data.level.getD "medium"),
         sent)

/-- The `POST /download-pdf` handler `download_pdf` from `src/app1.py`,
parameterized by the timestamp string `datetime.now().strftime(...)`
produces.  Besides the response it returns the `(summary, level)` pair
passed to `generate_pdf`. -/
def download_pdf (now : String) (data : ReqData) :
    HttpResponse × (String × String) :=
  match generate_pdf (data.summary.getD "") (data.level.getD "medium") with
  | none =>
      (HttpResponse.internalError,
       (data.summary.getD "", data.level.getD "medium"))
  | some elems =>
      (HttpResponse.file ("legalease_" ++ now ++ ".pdf") "application/pdf"
         elems,
       (data.summary.getD "", data.level.getD "medium"))

/-- The element order claimed by the specification for `generate_pdf`:
title, spacer, italic subtitle, larger spacer, then per newline-delimited
segment a justified body paragraph and a small spacer, and finally the
italic disclaimer as the last element. -/
def specOrderedElements (summary label : String) : List Element :=
  [Element.paragraph "LEGALEASE" titleStyle,
   Element.spacer 1 12,
   Element.paragraph ("Summary Level: " ++ label) italicStyle,
   Element.spacer 1 20]
  ++ (splitOnNewline summary.data).flatMap
       (fun p => [Element.paragraph (String.mk p) bodyStyle,
                  Element.spacer 1 8])
  ++ [Element.paragraph disclaimerText italicStyle]

/-- The element order the code actually produces: as claimed by the
specification, but with a second larger spacer between the last body
segment and the disclaimer. -/
def amendedOrderedElements (summary label : String) : List Element :=
  [Element.paragraph "LEGALEASE" titleStyle,
   Element.spacer 1 12,
   Element.paragraph ("Summary Level: " ++ label) italicStyle,
   Element.spacer 1 20]
  ++ (splitOnNewline summary.data).flatMap
       (fun p => [Element.paragraph (String.mk p) bodyStyle,
                  Element.spacer 1 8])
  ++ [Element.spacer 1 20,
      Element.paragraph disclaimerText italicStyle]

/-- The body paragraphs (paragraphs set in the `body` style) among a list
of flowables. -/
def bodyParagraphs (l : List Element) : List Element :=
  l.filter fun e =>
    match e with
    | Element.paragraph _ st => decide (st = bodyStyle)
    | _ => false

/-- Projection used to state counterexamples without equality on `Json`:
the string carried by a successful string-valued client result. -/
def okString : Except GroqError Json → Option String
  | Except.ok (Json.str s) => some s
  | _ => none

/-- Two adjacent characters are not both whitespace. -/
def noAdjWS (a b : Char) : Prop :=
  ¬(isPySpace a = true ∧ isPySpace b = true)

theorem collapseWS_cons_eq :
    ∀ (rest : List Char) (c : Char),
      ∃ es, collapseWS (c :: rest) = (if isPySpace c then ' ' else c) :: es
  | [], c => ⟨[], rfl⟩
  | d :: rest, c => by
    cases hc : isPySpace c with
    | false =>
      exact ⟨collapseWS (d :: rest), by simp [collapseWS, hc]⟩
    | true =>
      cases hd : isPySpace d with
      | false =>
        exact ⟨collapseWS (d :: rest), by simp [collapseWS, hc, hd]⟩
      | true =>
        obtain ⟨es, hes⟩ := collapseWS_cons_eq rest d
        exact ⟨es, by simp [collapseWS, hc, hd, hes]⟩

theorem collapseWS_chain' : ∀ l : List Char, List.Chain' noAdjWS (collapseWS l)
  | [] => by simp [collapseWS]
  | [c] => by simp [collapseWS]
  | c :: d :: rest => by
    have ih := collapseWS_chain' (d :: rest)
    obtain ⟨es, hes⟩ := collapseWS_cons_eq rest d
    rw [hes] at ih
    cases hc : isPySpace c with
    | false =>
      rw [show collapseWS (c :: d :: rest)
            = c :: collapseWS (d :: rest) by simp [collapseWS, hc]]
      rw [hes]
      exact List.chain'_cons.mpr ⟨by simp [noAdjWS, hc], ih⟩
    | true =>
      cases hd : isPySpace d with
      | false =>
        rw [show collapseWS (c :: d :: rest)
              = ' ' :: collapseWS (d :: rest) by simp [collapseWS, hc, hd]]
        rw [hes]
        exact List.chain'_cons.mpr ⟨by simp [noAdjWS, hd], ih⟩
      | true =>
        rw [show collapseWS (c :: d :: rest)
              = collapseWS (d :: rest) by simp [collapseWS, hc, hd]]
        rw [hes]
        exact ih

theorem collapseWS_space_mem :
    ∀ l : List Char, ∀ c ∈ collapseWS l, isPySpace c = true → c = ' '
  | [] => by simp [collapseWS]
  | [a] => by
    intro c hc hsp
    simp only [collapseWS, List.mem_singleton] at hc
    subst hc
    cases ha : isPySpace a with
    | false => rw [if_neg (by simp [ha])] at hsp; rw [hsp] at ha; cases ha
    | true => rw [if_pos (by simp [ha])]
  | a :: d :: rest => by
    intro c hc hsp
    have ih := collapseWS_space_mem (d :: rest)
    cases ha : isPySpace a with
    | false =>
      rw [show collapseWS (a :: d :: rest)
            = a :: collapseWS (d :: rest) by simp [collapseWS, ha]] at hc
      rcases List.mem_cons.mp hc with hc | hc
      · subst hc; rw [hsp] at ha; cases ha
      · exact ih c hc hsp
    | true =>
      cases hd : isPySpace d with
      | false =>
        rw [show collapseWS (a :: d :: rest)
              = ' ' :: collapseWS (d :: rest) by simp [collapseWS, ha, hd]] at hc
        rcases List.mem_cons.mp hc with hc | hc
        · exact hc
        · exact ih c hc hsp
      | true =>
        rw [show collapseWS (a :: d :: rest)
              = collapseWS (d :: rest) by simp [collapseWS, ha, hd]] at hc
        exact ih c hc hsp

theorem collapseWS_eq_self :
    ∀ l : List Char, List.Chain' noAdjWS l →
      (∀ c ∈ l, isPySpace c = true → c = ' ') → collapseWS l = l
  | [], _, _ => rfl
  | [a], _, h => by
    cases ha : isPySpace a with
    | false => simp [collapseWS, ha]
    | true =>
      have := h a (by simp) ha
      simp [collapseWS, ha, this]
  | a :: d :: rest, hch, h => by
    have had : noAdjWS a d := (List.chain'_cons.mp hch).1
    have ih := collapseWS_eq_self (d :: rest) (List.chain'_cons.mp hch).2
      (fun c hc hsp => h c (List.mem_cons_of_mem _ hc) hsp)
    cases ha : isPySpace a with
    | false => simp [collapseWS, ha, ih]
    | true =>
      have hd : isPySpace d = false := by
        cases hd : isPySpace d with
        | false => rfl
        | true => exact absurd ⟨ha, hd⟩ had
      have ha' : a = ' ' := h a (by simp) ha
      simp [collapseWS, ha, hd, ih, ha']

theorem head?_dropWhile_not (p : Char → Bool) :
    ∀ (l : List Char) (c : Char), (l.dropWhile p).head? = some c → p c = false
  | [], c => by simp
  | a :: l, c => by
    intro hc
    cases hp : p a with
    | true =>
      rw [List.dropWhile_cons, if_pos (by simp [hp])] at hc
      exact head?_dropWhile_not p l c hc
    | false =>
      rw [List.dropWhile_cons, if_neg (by simp [hp])] at hc
      simp only [List.head?_cons, Option.some.injEq] at hc
      rw [← hc]
      exact hp

theorem chain'_noAdjWS_reverse (l : List Char) (h : List.Chain' noAdjWS l) :
    List.Chain' noAdjWS l.reverse := by
  rw [List.chain'_reverse]
  exact h.imp fun a b hab hc => hab ⟨hc.2, hc.1⟩

theorem chain'_stripWS (l : List Char) (h : List.Chain' noAdjWS l) :
    List.Chain' noAdjWS (stripWS l) := by
  have c1 : List.Chain' noAdjWS (l.dropWhile isPySpace) :=
    h.suffix (List.dropWhile_suffix _)
  have c2 := chain'_noAdjWS_reverse _ c1
  have c3 : List.Chain' noAdjWS
      ((l.dropWhile isPySpace).reverse.dropWhile isPySpace) :=
    c2.suffix (List.dropWhile_suffix _)
  exact chain'_noAdjWS_reverse _ c3

theorem mem_stripWS (l : List Char) (c : Char) (h : c ∈ stripWS l) : c ∈ l := by
  rw [stripWS, List.mem_reverse] at h
  have h2 := (List.dropWhile_suffix (l := (l.dropWhile isPySpace).reverse)
    isPySpace).sublist.subset h
  rw [List.mem_reverse] at h2
  exact (List.dropWhile_suffix (l := l) isPySpace).sublist.subset h2

theorem getLast?_stripWS (l : List Char) (c : Char)
    (h : (stripWS l).getLast? = some c) : isPySpace c = false := by
  rw [stripWS, List.getLast?_reverse] at h
  exact head?_dropWhile_not _ _ c h

theorem head?_stripWS (l : List Char) (c : Char)
    (h : (stripWS l).head? = some c) : isPySpace c = false := by
  rw [stripWS, List.head?_reverse] at h
  set X := (l.dropWhile isPySpace).reverse.dropWhile isPySpace with hX
  obtain ⟨t, ht⟩ := List.dropWhile_suffix (l := (l.dropWhile isPySpace).reverse)
    isPySpace
  have hne : X ≠ [] := by
    intro he
    rw [he] at h
    simp at h
  have hY : ((l.dropWhile isPySpace).reverse).getLast? = some c := by
    rw [← ht, List.getLast?_append_of_ne_nil _ hne]
    exact h
  rw [List.getLast?_reverse] at hY
  exact head?_dropWhile_not _ _ c hY

theorem dropWhile_eq_self_of_head (p : Char → Bool) :
    ∀ l : List Char, (∀ c, l.head? = some c → p c = false) → l.dropWhile p = l
  | [], _ => rfl
  | a :: l, h => by
    have ha := h a rfl
    rw [List.dropWhile_cons, if_neg (by simp [ha])]

theorem stripWS_eq_self (l : List Char)
    (h1 : ∀ c, l.head? = some c → isPySpace c = false)
    (h2 : ∀ c, l.getLast? = some c → isPySpace c = false) : stripWS l = l := by
  rw [stripWS, dropWhile_eq_self_of_head _ l h1,
    dropWhile_eq_self_of_head _ l.reverse
      (fun c hc => h2 c (by rwa [List.head?_reverse] at hc)),
    List.reverse_reverse]

/-- The value of `summarize_with_groq` as a function of the single upstream
outcome, once the request body was built. -/
def groqOutcome : UpstreamOutcome → Except GroqError Json
  | UpstreamOutcome.netFail => Except.error GroqError.netFail
  | UpstreamOutcome.response status jbody =>
      if 400 ≤ status ∧ status < 600 then
        Except.error (GroqError.httpError status)
      else
        match jbody with
        | none => Except.error GroqError.jsonDecodeError
        | some j =>
            match extractContent j with
            | none => Except.error GroqError.bodyShapeError
            | some c => Except.ok c

theorem summarize_with_groq_sends (oracle : RequestBody → UpstreamOutcome)
    (text level : String) (b : RequestBody)
    (hb : buildGroqBody text level = some b) :
    (summarize_with_groq oracle text level).2 = [b] := by
  simp only [summarize_with_groq, hb]
  cases oracle b with
  | netFail => rfl
  | response st jb =>
    by_cases hst : 400 ≤ st ∧ st < 600
    · simp [hst]
    · cases jb with
      | none => simp [hst]
      | some j => cases hext : extractContent j <;> simp [hst, hext]

theorem summarize_with_groq_fst (oracle : RequestBody → UpstreamOutcome)
    (text level : String) (b : RequestBody)
    (hb : buildGroqBody text level = some b) :
    (summarize_with_groq oracle text level).1 = groqOutcome (oracle b) := by
  simp only [summarize_with_groq, hb, groqOutcome]
  cases oracle b with
  | netFail => rfl
  | response st jb =>
    by_cases hst : 400 ≤ st ∧ st < 600
    · simp [hst]
    · cases jb with
      | none => simp [hst]
      | some j => cases hext : extractContent j <;> simp [hst, hext]

/-- C5: for every input string, the sanitizer's output has no two
consecutive whitespace characters, no leading or trailing whitespace, and
every whitespace character left in it is the single space that replaced a
maximal whitespace run. -/
theorem sanitize_text_whitespace_normal (s : String) :
    List.Chain' noAdjWS (sanitize_text s).data ∧
    (∀ c, (sanitize_text s).data.head? = some c → isPySpace c = false) ∧
    (∀ c, (sanitize_text s).data.getLast? = some c → isPySpace c = false) ∧
    (∀ c ∈ (sanitize_text s).data, isPySpace c = true → c = ' ') := by
  refine ⟨?_, ?_, ?_, ?_⟩
  · exact chain'_stripWS _ (collapseWS_chain' s.data)
  · exact fun c hc => head?_stripWS (collapseWS s.data) c hc
  · exact fun c hc => getLast?_stripWS (collapseWS s.data) c hc
  · exact fun c hc hsp =>
      collapseWS_space_mem s.data c (mem_stripWS _ c hc) hsp

/-- C6: the sanitizer is idempotent:
`sanitize_text (sanitize_text s) = sanitize_text s` for every string `s`. -/
theorem sanitize_text_idempotent (s : String) :
    sanitize_text (sanitize_text s) = sanitize_text s := by
  have hch : List.Chain' noAdjWS (stripWS (collapseWS s.data)) :=
    chain'_stripWS _ (collapseWS_chain' s.data)
  have hsp : ∀ c ∈ stripWS (collapseWS s.data), isPySpace c = true → c = ' ' :=
    fun c hc => collapseWS_space_mem s.data c (mem_stripWS _ c hc)
  show String.mk (stripWS (collapseWS (stripWS (collapseWS s.data))))
      = String.mk (stripWS (collapseWS s.data))
  rw [collapseWS_eq_self _ hch hsp,
    stripWS_eq_self _ (fun c hc => head?_stripWS (collapseWS s.data) c hc)
      (fun c hc => getLast?_stripWS (collapseWS s.data) c hc)]


/-- C2: for every input text and every recognized level, the outbound
chat-completion body holds exactly two messages: the system message fixing
the legal-document-expert persona, and the user message embedding the
level's label lower-cased and the full literal input text. -/
theorem groq_request_two_messages (text level label : String)
    (h : List.lookup level SUMMARY_LEVELS = some label) :
    ∃ b, buildGroqBody text level = some b ∧
      b.messages.length = 2 ∧
      b.messages =
        [{ role := "system", content := systemPrompt },
         { role := "user",
           content := "Provide a " ++ pyLower label ++ ":\n\n" ++ text }] := by
  rw [buildGroqBody, h]
  exact ⟨_, rfl, rfl, rfl⟩

/-- Witness for C2 at level short with a concrete legal sentence. -/
theorem groq_request_two_messages_witness :
    List.lookup "short" SUMMARY_LEVELS = some "Brief Overview" ∧
    ∃ b, buildGroqBody "Tenant shall pay rent." "short" = some b ∧
      b.messages.length = 2 ∧
      b.messages =
        [{ role := "system", content := systemPrompt },
         { role := "user",
           content := "Provide a " ++ pyLower "Brief Overview" ++ ":\n\n"
             ++ "Tenant shall pay rent." }] :=
  ⟨by decide,
   groq_request_two_messages "Tenant shall pay rent." "short" "Brief Overview"
     (by decide)⟩

/-- C3: for a level key outside short/medium/detailed the summarization
client fails fast with the KeyError (no silent default) and sends no
request at all to the external API. -/
theorem groq_unrecognized_level_fails_fast
    (oracle : RequestBody → UpstreamOutcome) (text level : String)
    (h1 : level ≠ "short") (h2 : level ≠ "medium") (h3 : level ≠ "detailed") :
    summarize_with_groq oracle text level
      = (Except.error (GroqError.keyError level), []) := by
  have e1 : (level == "short") = false := beq_eq_false_iff_ne.mpr h1
  have e2 : (level == "medium") = false := beq_eq_false_iff_ne.mpr h2
  have e3 : (level == "detailed") = false := beq_eq_false_iff_ne.mpr h3
  have hl : List.lookup level SUMMARY_LEVELS = none := by
    simp [SUMMARY_LEVELS, List.lookup, e1, e2, e3]
  simp [summarize_with_groq, buildGroqBody, hl]

/-- Witness for C3 at the unrecognized level key brief. -/
theorem groq_unrecognized_level_fails_fast_witness :
    ("brief" ≠ "short" ∧ "brief" ≠ "medium" ∧ "brief" ≠ "detailed") ∧
    summarize_with_groq (fun _ => UpstreamOutcome.netFail)
        "Tenant shall pay rent." "brief"
      = (Except.error (GroqError.keyError "brief"), []) :=
  ⟨by decide,
   groq_unrecognized_level_fails_fast (fun _ => UpstreamOutcome.netFail)
     "Tenant shall pay rent." "brief" (by decide) (by decide) (by decide)⟩

/-- C7 (counterexample): under HTTP status 300 — not a 2xx status — with a
well-formed body, the client raises nothing and returns the content:
`raise_for_status` only raises for statuses in `[400, 600)`, so a non-2xx
3xx response does not surface as an error, contrary to the claim. -/
theorem groq_non2xx_not_error_counterexample :
    okString (summarize_with_groq
      (fun _ => UpstreamOutcome.response 300
        (some (Json.obj [("choices", Json.arr
          [Json.obj [("message", Json.obj [("content", Json.str "OK")])]])])))
      "Tenant shall pay rent." "short").1 = some "OK" ∧
    ¬(200 ≤ 300 ∧ 300 < 300) := by
  exact ⟨by decide, by decide⟩

/-- C7 (amended): for every recognized level the client sends exactly one
request (no retry); a network failure, a 4xx/5xx status, an unparsable
body, or a body missing the expected field each raises an unrecovered
error, which the summarize handler turns into a 500 response; otherwise the
first response choice's message content is returned as is. -/
theorem groq_client_contract (oracle : RequestBody → UpstreamOutcome)
    (text level label : String)
    (h : List.lookup level SUMMARY_LEVELS = some label) :
    ∃ b, buildGroqBody text level = some b ∧
      (summarize_with_groq oracle text level).2 = [b] ∧
      (oracle b = UpstreamOutcome.netFail →
        (summarize_with_groq oracle text level).1
          = Except.error GroqError.netFail) ∧
      (∀ st jb, oracle b = UpstreamOutcome.response st jb →
        ((400 ≤ st ∧ st < 600) →
          (summarize_with_groq oracle text level).1
            = Except.error (GroqError.httpError st)) ∧
        (¬(400 ≤ st ∧ st < 600) →
          (jb = none →
            (summarize_with_groq oracle text level).1
              = Except.error GroqError.jsonDecodeError) ∧
          (∀ j, jb = some j →
            (extractContent j = none →
              (summarize_with_groq oracle text level).1
                = Except.error GroqError.bodyShapeError) ∧
            (∀ c, extractContent j = some c →
              (summarize_with_groq oracle text level).1 = Except.ok c)))) ∧
      (∀ data : ReqData,
        sanitize_text (data.text.getD "") = text → text ≠ "" →
        data.level.getD "medium" = level →
        ∀ e, (summarize_with_groq oracle text level).1 = Except.error e →
          statusOf (summarize oracle data).1 = 500) := by
  obtain ⟨b, hb⟩ : ∃ b, buildGroqBody text level = some b :=
    ⟨_, by rw [buildGroqBody, h]⟩
  have hfst := summarize_with_groq_fst oracle text level b hb
  refine ⟨b, hb, summarize_with_groq_sends oracle text level b hb, ?_, ?_, ?_⟩
  · intro hor
    rw [hfst, hor]
    rfl
  · intro st jb hor
    refine ⟨fun hst => ?_, fun hst => ⟨fun hjb => ?_, fun j hj => ⟨fun hext => ?_, fun c hc => ?_⟩⟩⟩
    · rw [hfst, hor]; simp [groqOutcome, hst]
    · rw [hfst, hor, hjb]; simp [groqOutcome, hst]
    · rw [hfst, hor, hj]; simp [groqOutcome, hst, hext]
    · rw [hfst, hor, hj]; simp [groqOutcome, hst, hc]
  · intro data htext hne hlvl e herr
    rcases hq : summarize_with_groq oracle text level with ⟨res, sent⟩
    rw [hq] at herr
    simp only at herr
    subst herr
    simp [summarize, htext, hlvl, hne, hq, statusOf]

/-- Witness for the amended C7 at level medium with a network-failure
upstream. -/
theorem groq_client_contract_witness :
    List.lookup "medium" SUMMARY_LEVELS = some "Standard Summary" ∧
    (∃ b, buildGroqBody "Tenant shall pay rent." "medium" = some b ∧
      (summarize_with_groq (fun _ => UpstreamOutcome.netFail)
        "Tenant shall pay rent." "medium").2 = [b] ∧
      ((fun _ => UpstreamOutcome.netFail : RequestBody → UpstreamOutcome) b
          = UpstreamOutcome.netFail →
        (summarize_with_groq (fun _ => UpstreamOutcome.netFail)
          "Tenant shall pay rent." "medium").1
          = Except.error GroqError.netFail) ∧
      (∀ st jb,
        (fun _ => UpstreamOutcome.netFail : RequestBody → UpstreamOutcome) b
          = UpstreamOutcome.response st jb →
        ((400 ≤ st ∧ st < 600) →
          (summarize_with_groq (fun _ => UpstreamOutcome.netFail)
            "Tenant shall pay rent." "medium").1
            = Except.error (GroqError.httpError st)) ∧
        (¬(400 ≤ st ∧ st < 600) →
          (jb = none →
            (summarize_with_groq (fun _ => UpstreamOutcome.netFail)
              "Tenant shall pay rent." "medium").1
              = Except.error GroqError.jsonDecodeError) ∧
          (∀ j, jb = some j →
            (extractContent j = none →
              (summarize_with_groq (fun _ => UpstreamOutcome.netFail)
                "Tenant shall pay rent." "medium").1
                = Except.error GroqError.bodyShapeError) ∧
            (∀ c, extractContent j = some c →
              (summarize_with_groq (fun _ => UpstreamOutcome.netFail)
                "Tenant shall pay rent." "medium").1 = Except.ok c)))) ∧
      (∀ data : ReqData,
        sanitize_text (data.text.getD "") = "Tenant shall pay rent." →
        ("Tenant shall pay rent." : String) ≠ "" →
        data.level.getD "medium" = "medium" →
        ∀ e, (summarize_with_groq (fun _ => UpstreamOutcome.netFail)
            "Tenant shall pay rent." "medium").1 = Except.error e →
          statusOf (summarize (fun _ => UpstreamOutcome.netFail) data).1
            = 500)) :=
  ⟨by decide,
   groq_client_contract (fun _ => UpstreamOutcome.netFail)
     "Tenant shall pay rent." "medium" "Standard Summary" (by decide)⟩

/-- C1: the summarize handler answers 400 with the error payload exactly
when the sanitized text is empty, and then never invokes the summarization
client (no call, no upstream request); otherwise it invokes the client on
the sanitized text and, when the client succeeds, answers 200 with the
summary object. -/
theorem summarize_route_contract (oracle : RequestBody → UpstreamOutcome)
    (data : ReqData) :
    ((summarize oracle data).1
        = HttpResponse.json 400 (Json.obj [("error", Json.str "Text required")])
      ↔ sanitize_text (data.text.getD "") = "") ∧
    (sanitize_text (data.text.getD "") = "" →
      (summarize oracle data).2.1 = none ∧ (summarize oracle data).2.2 = []) ∧
    (sanitize_text (data.text.getD "") ≠ "" →
      (summarize oracle data).2.1
        = some (sanitize_text (data.text.getD ""), data.level.getD "medium") ∧
      (∀ s, (summarize_with_groq oracle (sanitize_text (data.text.getD ""))
          (data.level.getD "medium")).1 = Except.ok s →
        (summarize oracle data).1
          = HttpResponse.json 200 (Json.obj [("summary", s)]))) := by
  by_cases he : sanitize_text (data.text.getD "") = ""
  · refine ⟨⟨fun _ => he, fun _ => ?_⟩, fun _ => ?_, fun hne => absurd he hne⟩
    · simp [summarize, he]
    · simp [summarize, he]
  · rcases hq : summarize_with_groq oracle (sanitize_text (data.text.getD ""))
        (data.level.getD "medium") with ⟨res, sent⟩
    cases res with
    | ok s =>
      have hroute : summarize oracle data
          = (HttpResponse.json 200 (Json.obj [("summary", s)]),
             some (sanitize_text (data.text.getD ""), data.level.getD "medium"),
             sent) := by
        simp [summarize, he, hq]
      refine ⟨?_, fun h0 => absurd h0 he, fun _ => ⟨by rw [hroute], ?_⟩⟩
      · rw [hroute]
        constructor
        · intro hj
          simp at hj
        · intro h0
          exact absurd h0 he
      · intro s' hs'
        simp at hs'
        subst hs'
        rw [hroute]
    | error e =>
      have hroute : summarize oracle data
          = (HttpResponse.internalError,
             some (sanitize_text (data.text.getD ""), data.level.getD "medium"),
             sent) := by
        simp [summarize, he, hq]
      refine ⟨?_, fun h0 => absurd h0 he, fun _ => ⟨by rw [hroute], ?_⟩⟩
      · rw [hroute]
        constructor
        · intro hj
          simp at hj
        · intro h0
          exact absurd h0 he
      · intro s' hs'
        simp at hs'

/-- C9: when the request body omits the level field, both handlers use the
level medium: the summarize handler invokes the client with level medium,
and the download handler invokes the renderer with level medium. -/
theorem level_defaults_to_medium (oracle : RequestBody → UpstreamOutcome)
    (now : String) (data : ReqData) (h : data.level = none) :
    (sanitize_text (data.text.getD "") ≠ "" →
      (summarize oracle data).2.1
        = some (sanitize_text (data.text.getD ""), "medium")) ∧
    (download_pdf now data).2 = (data.summary.getD "", "medium") := by
  have hl : data.level.getD "medium" = "medium" := by rw [h]; rfl
  constructor
  · intro hne
    rcases hq : summarize_with_groq oracle (sanitize_text (data.text.getD ""))
        "medium" with ⟨res, sent⟩
    cases res with
    | ok s => simp [summarize, hl, hne, hq]
    | error e => simp [summarize, hl, hne, hq]
  · rcases hg : generate_pdf (data.summary.getD "") "medium" with _ | elems
    · simp [download_pdf, hl, hg]
    · simp [download_pdf, hl, hg]

/-- Witness for C9: a request body with text and summary but no level. -/
theorem level_defaults_to_medium_witness :
    (ReqData.mk (some " Tenant  shall pay rent. ") none (some "S")).level
      = none ∧
    ((sanitize_text ((ReqData.mk (some " Tenant  shall pay rent. ") none
        (some "S")).text.getD "") ≠ "" →
      (summarize (fun _ => UpstreamOutcome.netFail)
        (ReqData.mk (some " Tenant  shall pay rent. ") none (some "S"))).2.1
        = some (sanitize_text ((ReqData.mk (some " Tenant  shall pay rent. ")
            none (some "S")).text.getD ""), "medium")) ∧
    (download_pdf "20260101_000000"
        (ReqData.mk (some " Tenant  shall pay rent. ") none (some "S"))).2
      = ((ReqData.mk (some " Tenant  shall pay rent. ") none
          (some "S")).summary.getD "", "medium")) :=
  ⟨rfl,
   level_defaults_to_medium (fun _ => UpstreamOutcome.netFail)
     "20260101_000000"
     (ReqData.mk (some " Tenant  shall pay rent. ") none (some "S")) rfl⟩

/-- C10 (counterexample): the body with level bogus and no summary field
omits the summary, yet the download handler answers 500 — the KeyError on
the unrecognized level — not a 200 PDF attachment. -/
theorem download_pdf_missing_summary_counterexample :
    (ReqData.mk none (some "bogus") none).summary = none ∧
    statusOf (download_pdf "20260101_000000"
      (ReqData.mk none (some "bogus") none)).1 = 500 :=
  ⟨rfl, by decide⟩

/-- C10 (amended): each handler substitutes the empty string for the
missing field rather than failing on the key: summarize with no text
answers the 400 validation error; download with no summary passes the
empty summary to the renderer, answering a 200 PDF attachment built from
the empty summary when the level lookup succeeds, and 500 when it fails. -/
theorem missing_fields_default_to_empty
    (oracle : RequestBody → UpstreamOutcome) (now : String) (data : ReqData)
    (ht : data.text = none) (hs : data.summary = none) :
    (summarize oracle data).1
      = HttpResponse.json 400 (Json.obj [("error", Json.str "Text required")]) ∧
    (download_pdf now data).2.1 = "" ∧
    (∀ elems, generate_pdf "" (data.level.getD "medium") = some elems →
      (download_pdf now data).1
        = HttpResponse.file ("legalease_" ++ now ++ ".pdf")
            "application/pdf" elems) ∧
    (generate_pdf "" (data.level.getD "medium") = none →
      (download_pdf now data).1 = HttpResponse.internalError) := by
  have htext : sanitize_text (data.text.getD "") = "" := by rw [ht]; rfl
  have hsum : data.summary.getD "" = "" := by rw [hs]; rfl
  refine ⟨by simp [summarize, htext], ?_, ?_, ?_⟩
  · rcases hg : generate_pdf (data.summary.getD "") (data.level.getD "medium")
        with _ | elems
    · rw [hsum] at hg
      simp [download_pdf, hg, hsum]
    · rw [hsum] at hg
      simp [download_pdf, hg, hsum]
  · intro elems hg
    rw [← hsum] at hg
    simp [download_pdf, hg]
  · intro hg
    rw [← hsum] at hg
    simp [download_pdf, hg]

/-- Witness for the amended C10: the empty request body. -/
theorem missing_fields_default_to_empty_witness :
    (ReqData.mk none none none).text = none ∧
    (ReqData.mk none none none).summary = none ∧
    ((summarize (fun _ => UpstreamOutcome.netFail)
        (ReqData.mk none none none)).1
      = HttpResponse.json 400
          (Json.obj [("error", Json.str "Text required")]) ∧
    (download_pdf "20260101_000000" (ReqData.mk none none none)).2.1 = "" ∧
    (∀ elems, generate_pdf ""
        ((ReqData.mk none none none).level.getD "medium") = some elems →
      (download_pdf "20260101_000000" (ReqData.mk none none none)).1
        = HttpResponse.file ("legalease_" ++ "20260101_000000" ++ ".pdf")
            "application/pdf" elems) ∧
    (generate_pdf "" ((ReqData.mk none none none).level.getD "medium") = none →
      (download_pdf "20260101_000000" (ReqData.mk none none none)).1
        = HttpResponse.internalError)) :=
  ⟨rfl, rfl,
   missing_fields_default_to_empty (fun _ => UpstreamOutcome.netFail)
     "20260101_000000" (ReqData.mk none none none) rfl rfl⟩

/-- C4 (counterexample): for the empty summary the renderer does emit a
body paragraph: Python splits the empty string into one empty segment, so
exactly one (empty-text) body paragraph lands in the document, contrary to
the claim that no body paragraph appears. -/
theorem generate_pdf_empty_summary_counterexample :
    (generate_pdf "" "medium").map (fun l => (bodyParagraphs l).length)
      = some 1 := by decide

/-- C4 (amended): for the empty summary and a recognized level the renderer
treats nothing as an error and produces title, subtitle and disclaimer plus
exactly one body paragraph whose text is empty (with its small spacer),
because the empty string splits into one empty segment. -/
theorem generate_pdf_empty_summary (level label : String)
    (h : List.lookup level SUMMARY_LEVELS = some label) :
    generate_pdf "" level
      = some [Element.paragraph "LEGALEASE" titleStyle,
              Element.spacer 1 12,
              Element.paragraph ("Summary Level: " ++ label) italicStyle,
              Element.spacer 1 20,
              Element.paragraph "" bodyStyle,
              Element.spacer 1 8,
              Element.spacer 1 20,
              Element.paragraph disclaimerText italicStyle] := by
  rw [generate_pdf, h]
  rfl

/-- Witness for the amended C4 at level medium. -/
theorem generate_pdf_empty_summary_witness :
    List.lookup "medium" SUMMARY_LEVELS = some "Standard Summary" ∧
    generate_pdf "" "medium"
      = some [Element.paragraph "LEGALEASE" titleStyle,
              Element.spacer 1 12,
              Element.paragraph ("Summary Level: " ++ "Standard Summary")
                italicStyle,
              Element.spacer 1 20,
              Element.paragraph "" bodyStyle,
              Element.spacer 1 8,
              Element.spacer 1 20,
              Element.paragraph disclaimerText italicStyle] :=
  ⟨by decide, generate_pdf_empty_summary "medium" "Standard Summary"
    (by decide)⟩

/-- C8 (counterexample): for summary a and level short the produced element
list is not the one the claim enumerates: the code inserts a second large
spacer between the last body-paragraph spacer and the disclaimer, which the
claimed order omits. -/
theorem generate_pdf_order_counterexample :
    generate_pdf "a" "short"
      ≠ some (specOrderedElements "a" "Brief Overview") := by decide

/-- C8 (amended): for every summary and recognized level the renderer emits
exactly the claimed sequence — centered size-24 title, spacer, italic
subtitle naming the label, larger spacer, then per newline-delimited
segment a justified size-11 leading-18 body paragraph and a small spacer —
followed by one more larger spacer, and the italic disclaimer as the last
element. -/
theorem generate_pdf_element_order (summary level label : String)
    (h : List.lookup level SUMMARY_LEVELS = some label) :
    generate_pdf summary level
      = some (amendedOrderedElements summary label) ∧
    (amendedOrderedElements summary label).getLast?
      = some (Element.paragraph disclaimerText italicStyle) := by
  constructor
  · rw [generate_pdf, h]
    rfl
  · rw [amendedOrderedElements]
    rw [List.getLast?_append_of_ne_nil _ (by simp)]
    rfl

/-- Witness for the amended C8 on a two-clause summary at level detailed. -/
theorem generate_pdf_element_order_witness :
    List.lookup "detailed" SUMMARY_LEVELS = some "Comprehensive Analysis" ∧
    (generate_pdf "Clause A.\nClause B." "detailed"
      = some (amendedOrderedElements "Clause A.\nClause B."
          "Comprehensive Analysis") ∧
    (amendedOrderedElements "Clause A.\nClause B."
        "Comprehensive Analysis").getLast?
      = some (Element.paragraph disclaimerText italicStyle)) :=
  ⟨by decide, generate_pdf_element_order "Clause A.\nClause B." "detailed"
    "Comprehensive Analysis" (by decide)⟩
